import Mathlib

/-!
Shallow embedding of `terminal-driver-mcp` (files
`src/terminal_control_mcp/xterm_session.py` and
`src/terminal_control_mcp/server.py`).

External effects (the filesystem, child processes, the X11 tool chain) are
modelled by explicit environment records; each Python method becomes a total
Lean function that passes the session state explicitly and returns errors as
values (Python `raise` becomes an `Option PyError` / `Except String` result).
-/

namespace TerminalMCP

/-- A byte string, as a list of byte values. -/
abbrev Bytes := List Nat

/-- Handle to a spawned child process.  `returncode = none` means the process
is still running (Python `proc.returncode is None`). -/
structure Proc where
  returncode : Option Int
  deriving Repr, DecidableEq

/-- The mutable attributes of `XTermSession.__init__`
(`xterm_session.py`, lines 24-42). -/
structure Session where
  sessionId : String
  command : String
  terminalWidth : Nat
  terminalHeight : Nat
  displayWidth : Nat
  displayHeight : Nat
  display : String
  xvfbProc : Option Proc
  xtermProc : Option Proc
  isRunning : Bool
  tempDir : Option String
  deriving Repr, DecidableEq

/-- The part of the filesystem consulted by `_find_free_display`: whether the
X11 socket `/tmp/.X11-unix/X{n}` exists for a display number `n`. -/
structure FsEnv where
  socketExists : Nat → Bool

/-- The scanning loop of `_find_free_display` (lines 46-50): starting at `d`,
try `k` candidate display numbers and return the first whose socket file does
not exist. -/
def findFreeDisplayAux (env : FsEnv) : Nat → Nat → Option Nat
  | _, 0 => none
  | d, k + 1 => if env.socketExists d then findFreeDisplayAux env (d + 1) k else some d

/-- `XTermSession._find_free_display` (lines 44-55): scan
`range(start, start + max_attempts)` for a free display, falling back to
`start + max_attempts` when every candidate is taken. -/
def find_free_display (env : FsEnv) (start maxAttempts : Nat) : String :=
  match findFreeDisplayAux env start maxAttempts with
  | some d => ":" ++ toString d
  | none => ":" ++ toString (start + maxAttempts)

/-- `XTermSession.__init__` (lines 24-42).  The session id (a fresh uuid in
the source) is supplied by the caller; the display is allocated with the
source's default arguments `start=100`, `max_attempts=100`. -/
def XTermSession.init (fsEnv : FsEnv) (sid command : String) (width height : Nat) :
    Session :=
  { sessionId := sid
    command := command
    terminalWidth := width
    terminalHeight := height
    displayWidth := max 1024 (width * 12)
    displayHeight := max 768 (height * 20)
    display := find_free_display fsEnv 100 100
    xvfbProc := none
    xtermProc := none
    isRunning := false
    tempDir := none }

/-- A Python exception escaping one of the startup helpers: either the
explicit `RuntimeError` raised on an early child exit, or an error raised by
`asyncio.create_subprocess_exec` itself (e.g. the binary is missing). -/
inductive PyError where
  | runtimeError (msg : String)
  | spawnError (msg : String)
  deriving Repr, DecidableEq

/-- `str(e)` on a caught exception, as used by the server layer. -/
def PyError.message : PyError → String
  | .runtimeError m => m
  | .spawnError m => m

/-- Outcomes of the external world during `start`: whether each spawn call
succeeds, what each child's `returncode` is after the fixed settle sleep
(`none` = still running), and each child's stderr content.  The source pipes
Xvfb's stderr and reads it on failure; xterm's stderr is sent to `DEVNULL`,
so `xtermStderr` records what the child wrote even though the code never
reads it. -/
structure StartEnv where
  xvfbSpawnOk : Bool
  xvfbSpawnErrMsg : String
  xvfbEarlyExit : Option Int
  xvfbStderr : String
  xtermSpawnOk : Bool
  xtermSpawnErrMsg : String
  xtermEarlyExit : Option Int
  xtermStderr : String

/-- The `RuntimeError` text of `_start_virtual_display` (lines 97-99). -/
def xvfbFailMsg (code : Int) (errorMsg : String) : String :=
  "Xvfb failed to start with return code " ++ toString code ++ ": " ++ errorMsg

/-- The `RuntimeError` text of `_start_xterm` (lines 133-135): note it
carries only the return code; the child's stderr went to `DEVNULL`. -/
def xtermFailMsg (code : Int) : String :=
  "xterm failed to start with return code " ++ toString code

/-- `XTermSession._start_virtual_display` (lines 70-99): spawn Xvfb, sleep,
and if the process has already exited raise a `RuntimeError` carrying the
return code and the decoded stderr (or `"No stderr output"` when empty).
State-passing form: the session is returned alongside the optional raised
error, because a Python exception does not roll back `self.xvfb_proc`. -/
def startVirtualDisplay (env : StartEnv) (s : Session) : Session × Option PyError :=
  if env.xvfbSpawnOk = false then
    (s, some (.spawnError env.xvfbSpawnErrMsg))
  else
    let s := { s with xvfbProc := some ⟨env.xvfbEarlyExit⟩ }
    match env.xvfbEarlyExit with
    | some code =>
        let errorMsg := if env.xvfbStderr = "" then "No stderr output" else env.xvfbStderr
        (s, some (.runtimeError (xvfbFailMsg code errorMsg)))
    | none => (s, none)

/-- `XTermSession._start_xterm` (lines 101-135): spawn xterm (its stdout and
stderr go to `DEVNULL`), sleep, and if the process has already exited raise a
`RuntimeError` carrying only the return code. -/
def startXterm (env : StartEnv) (s : Session) : Session × Option PyError :=
  if env.xtermSpawnOk = false then
    (s, some (.spawnError env.xtermSpawnErrMsg))
  else
    let s := { s with xtermProc := some ⟨env.xtermEarlyExit⟩ }
    match env.xtermEarlyExit with
    | some code =>
        (s, some (.runtimeError (xtermFailMsg code)))
    | none => (s, none)

/-- Whether each child's graceful `terminate()` completes within the bounded
`wait_for(..., timeout=5.0)` during cleanup; on timeout the process is
`kill()`ed. -/
structure CleanupEnv where
  xtermGraceful : Bool
  xvfbGraceful : Bool

/-- One observable teardown action performed by `cleanup`. -/
inductive TeardownAct where
  | terminateXterm
  | killXterm
  | terminateXvfb
  | killXvfb
  | removeTempDir
  deriving Repr, DecidableEq

/-- The per-process teardown step of `cleanup` (lines 311-328): only a handle
whose `returncode is None` is acted on; graceful termination or, on timeout,
a kill.  Either way the process ends with a `returncode` set (`-15` for
SIGTERM, `-9` for SIGKILL, as asyncio reports them). -/
def terminateProc (graceful : Bool) (tAct kAct : TeardownAct) :
    Option Proc → Option Proc × List TeardownAct
  | none => (none, [])
  | some p =>
      match p.returncode with
      | some _ => (some p, [])
      | none =>
          if graceful then (some ⟨some (-15)⟩, [tAct])
          else (some ⟨some (-9)⟩, [tAct, kAct])

/-- `XTermSession.cleanup` (lines 304-343): clear the running flag, tear down
xterm then Xvfb (each only if still running), and remove the scratch
directory (`shutil.rmtree(..., ignore_errors=True)` inside a `try`, so it
never raises; `self.temp_dir` is reset to `None`).  The whole method raises
nothing, so it is a total function; the list records the teardown actions
performed. -/
def cleanup (env : CleanupEnv) (s : Session) : Session × List TeardownAct :=
  let xtermR := terminateProc env.xtermGraceful .terminateXterm .killXterm s.xtermProc
  let xvfbR := terminateProc env.xvfbGraceful .terminateXvfb .killXvfb s.xvfbProc
  let aTmp : List TeardownAct := if s.tempDir.isSome then [.removeTempDir] else []
  ({ s with isRunning := false, xtermProc := xtermR.1, xvfbProc := xvfbR.1, tempDir := none },
   xtermR.2 ++ xvfbR.2 ++ aTmp)

/-- `XTermSession.start` (lines 57-68): run both startup helpers, set
`is_running`; on any exception run `cleanup` and re-raise the original
error. -/
def start (env : StartEnv) (cenv : CleanupEnv) (s : Session) : Session × Option PyError :=
  let r1 := startVirtualDisplay env s
  match r1.2 with
  | some e => ((cleanup cenv r1.1).1, some e)
  | none =>
      let r2 := startXterm env r1.1
      match r2.2 with
      | some e => ((cleanup cenv r2.1).1, some e)
      | none => ({ r2.1 with isRunning := true }, none)

/-- An `Option Proc` holding no live process: either no handle, or a handle
whose process has exited. -/
def procDead : Option Proc → Bool
  | none => true
  | some p => p.returncode.isSome

/-- The terminal `stopped` state: not running, neither child alive, scratch
directory gone. -/
def sessionStopped (s : Session) : Prop :=
  s.isRunning = false ∧ procDead s.xvfbProc = true ∧ procDead s.xtermProc = true ∧
    s.tempDir = none

instance (s : Session) : Decidable (sessionStopped s) := by
  unfold sessionStopped; infer_instance

/-- The four `xdotool` invocations of `get_window_id` (lines 143-148), in
their source spelling: `search --class XTerm`, `search --name xterm`,
`search --class xterm`, `getactivewindow`. -/
inductive SearchMethod where
  | classXTerm
  | nameXterm
  | classXterm
  | getActiveWindow
  deriving Repr, DecidableEq

/-- Result of running one search method: the spawn raised, or the command
completed with a return code and stdout text. -/
inductive MethodOutcome where
  | raised
  | completed (returncode : Int) (stdout : String)
  deriving Repr, DecidableEq

/-- The state of the session's display as seen by the window-query tool:
what each `xdotool` invocation would produce. -/
def WindowEnv := SearchMethod → MethodOutcome

/-- Python `str.strip()`: drop whitespace from both ends. -/
def pyStrip (s : String) : String :=
  ⟨((s.toList.dropWhile Char.isWhitespace).reverse.dropWhile Char.isWhitespace).reverse⟩

/-- Python `str.split("\n")`: split a character list at newlines; always
non-empty. -/
def splitLines : List Char → List (List Char)
  | [] => [[]]
  | c :: t =>
      if c = '\n' then [] :: splitLines t
      else
        match splitLines t with
        | [] => [[c]]
        | h :: t2 => (c :: h) :: t2

/-- `stdout.decode().strip().split("\n")[0]` followed by the truthiness test
(lines 161-166): the first line of the stripped output, `none` when empty. -/
def parseWindowId (out : String) : Option String :=
  let windowId : String := ⟨(splitLines (pyStrip out).toList).headD []⟩
  if windowId = "" then none else some windowId

/-- What one search method contributes (lines 150-170): a window id only when
the spawn did not raise, the return code is `0`, and the first stdout line is
non-empty; otherwise the loop continues. -/
def methodResult (env : WindowEnv) (m : SearchMethod) : Option String :=
  match env m with
  | .raised => none
  | .completed rc out => if rc = 0 then parseWindowId out else none

/-- The `for search_method in search_methods` loop: first method that yields
a window id wins. -/
def firstMatch (env : WindowEnv) : List SearchMethod → Option String
  | [] => none
  | m :: ms =>
      match methodResult env m with
      | some w => some w
      | none => firstMatch env ms

/-- The `search_methods` list in source order (lines 143-148). -/
def searchMethods : List SearchMethod :=
  [.classXTerm, .nameXterm, .classXterm, .getActiveWindow]

/-- `XTermSession.get_window_id` (lines 137-173): try the strategies in
order, return the first hit, `None` when all fail (logged, not raised). -/
def get_window_id (env : WindowEnv) : Option String :=
  firstMatch env searchMethods

/-- The strategy order claimed by the spec's words (§4.3): class-name
variant 1, class-name variant 2 capitalization, window-title substring, then
the focused window.  Stated only to be compared with the source's
`searchMethods` order. -/
def specSearchOrder : List SearchMethod :=
  [.classXTerm, .classXterm, .nameXterm, .getActiveWindow]

/-- The externally observable input command issued by `send_text` /
`send_key`: which window was targeted and what was delivered. -/
inductive InputAct where
  | typed (windowId text : String)
  | keyed (windowId key : String)
  deriving Repr, DecidableEq

/-- `XTermSession.send_text` (lines 210-243): locate the window (raising
`RuntimeError("No xterm window found")` when absent), focus it, settle, then
`xdotool type --window <id> <text>`. -/
def send_text (wenv : WindowEnv) (text : String) : Except String InputAct :=
  match get_window_id wenv with
  | none => .error "No xterm window found"
  | some windowId => .ok (.typed windowId text)

/-- `XTermSession.send_key` (lines 175-208): locate the window (raising
`RuntimeError("No xterm window found")` when absent), focus it, settle, then
`xdotool key --window <id> <key>`. -/
def send_key (wenv : WindowEnv) (key : String) : Except String InputAct :=
  match get_window_id wenv with
  | none => .error "No xterm window found"
  | some windowId => .ok (.keyed windowId key)

/-- The standard base64 alphabet, as used by `base64.b64encode`. -/
def b64Char (n : Nat) : Char :=
  if n < 26 then Char.ofNat (65 + n)
  else if n < 52 then Char.ofNat (97 + (n - 26))
  else if n < 62 then Char.ofNat (48 + (n - 52))
  else if n = 62 then Char.ofNat 43
  else Char.ofNat 47

/-- Inverse of the base64 alphabet: the sextet a character denotes, `none`
for characters outside the alphabet. -/
def b64CharVal (c : Char) : Option Nat :=
  if 65 ≤ c.toNat ∧ c.toNat ≤ 90 then some (c.toNat - 65)
  else if 97 ≤ c.toNat ∧ c.toNat ≤ 122 then some (c.toNat - 97 + 26)
  else if 48 ≤ c.toNat ∧ c.toNat ≤ 57 then some (c.toNat - 48 + 52)
  else if c.toNat = 43 then some 62
  else if c.toNat = 47 then some 63
  else none

/-- The padding character `=`. -/
def b64Pad : Char := Char.ofNat 61

/-- `base64.b64encode` on a byte string: three bytes become four alphabet
characters; a trailing group of one or two bytes is padded with `=`. -/
def b64encodeChunks : Bytes → List Char
  | [] => []
  | [a] => [b64Char (a / 4), b64Char (a % 4 * 16), b64Pad, b64Pad]
  | [a, b] => [b64Char (a / 4), b64Char (a % 4 * 16 + b / 16), b64Char (b % 16 * 4), b64Pad]
  | a :: b :: c :: rest =>
      b64Char (a / 4) :: b64Char (a % 4 * 16 + b / 16) ::
        b64Char (b % 16 * 4 + c / 64) :: b64Char (c % 64) :: b64encodeChunks rest

/-- `base64.b64encode(...).decode("utf-8")`: the encoded bytes as a string. -/
def b64encode (bs : Bytes) : String := ⟨b64encodeChunks bs⟩

/-- Standard base64 decoding on a character list: four characters at a time,
honouring `=` padding; `none` on malformed input. -/
def b64decodeChunks : List Char → Option Bytes
  | [] => some []
  | c0 :: c1 :: c2 :: c3 :: rest =>
      match b64CharVal c0, b64CharVal c1 with
      | some s0, some s1 =>
          if c2 = b64Pad then
            if c3 = b64Pad ∧ rest = [] then some [s0 * 4 + s1 / 16] else none
          else
            match b64CharVal c2 with
            | some s2 =>
                if c3 = b64Pad then
                  if rest = [] then some [s0 * 4 + s1 / 16, s1 % 16 * 16 + s2 / 4] else none
                else
                  match b64CharVal c3, b64decodeChunks rest with
                  | some s3, some tl =>
                      some ((s0 * 4 + s1 / 16) :: (s1 % 16 * 16 + s2 / 4) ::
                        (s2 % 4 * 64 + s3) :: tl)
                  | _, _ => none
            | none => none
      | _, _ => none
  | _ => none

/-- Base64 decoding of a string. -/
def b64decode (s : String) : Option Bytes := b64decodeChunks s.toList

/-- The world as seen by one `capture_screenshot` call: the current time, the
name `tempfile.mkdtemp` would produce, the capture command's return code and
stderr, and the content the capture command leaves at the screenshot path
(`none` when it creates no file). -/
structure CaptureEnv where
  now : Nat
  mkdtempName : String
  importExit : Int
  importStderr : String
  fileContents : Option Bytes

/-- The dictionary returned by a successful `capture_screenshot`
(lines 284-295): the base64 image plus the metadata fields. -/
structure ScreenshotResult where
  image_data : String
  md_timestamp : Nat
  md_file_size : Nat
  md_display_size : String
  md_terminal_size : String
  md_session_id : String
  deriving Repr, DecidableEq

/-- Everything observable when `capture_screenshot` returns: the (possibly
mutated) session, the result or raised error message, and the content of the
screenshot path left on disk (`none` = the file does not exist). -/
structure CaptureOutcome where
  session : Session
  result : Except String ScreenshotResult
  fileAfter : Option Bytes
  deriving Repr

/-- `XTermSession.capture_screenshot` (lines 245-302).  The scratch directory
is created lazily; the capture command writes (or fails to write) the file;
a non-zero exit raises with the command's stderr (`"Unknown error"` when
empty), a missing file raises `"Screenshot file was not created"`.  On
success the file is read, base64-encoded, `stat`-ed for its size (on a
consistent single-threaded filesystem, the length of the bytes just read)
and unlinked; the `except` handler unlinks the file when it exists, then
re-raises. -/
def capture_screenshot (env : CaptureEnv) (s : Session) : CaptureOutcome :=
  let s := if s.tempDir.isNone then { s with tempDir := some env.mkdtempName } else s
  let fsAfterImport := env.fileContents
  if env.importExit ≠ 0 then
    let errorMsg := if env.importStderr = "" then "Unknown error" else env.importStderr
    { session := s
      result := .error ("Screenshot capture failed: " ++ errorMsg)
      fileAfter := if fsAfterImport.isSome then none else fsAfterImport }
  else
    match fsAfterImport with
    | none =>
        { session := s
          result := .error "Screenshot file was not created"
          fileAfter := none }
    | some bytes =>
        { session := s
          result := .ok
            { image_data := b64encode bytes
              md_timestamp := env.now
              md_file_size := bytes.length
              md_display_size := toString s.displayWidth ++ "x" ++ toString s.displayHeight
              md_terminal_size := toString s.terminalWidth ++ "x" ++ toString s.terminalHeight
              md_session_id := s.sessionId }
          fileAfter := none }

/-- The module-level `sessions: Dict[str, XTermSession]` of `server.py`,
as an association list with unique keys (fresh uuids). -/
abbrev Registry := List (String × Session)

/-- `session_id in sessions` / `sessions[session_id]`. -/
def Registry.find? (r : Registry) (sid : String) : Option Session :=
  (List.find? (fun p => p.1 = sid) r).map (fun p => p.2)

/-- `del sessions[session_id]`. -/
def Registry.erase (r : Registry) (sid : String) : Registry :=
  List.filter (fun p => p.1 ≠ sid) r

/-- `sessions[session_id] = session` on an existing key: the in-place
mutation of the stored session object. -/
def Registry.update (r : Registry) (sid : String) (s : Session) : Registry :=
  List.map (fun p => if p.1 = sid then (sid, s) else p) r

/-- The structured dictionaries the four tools return: one success shape per
tool, plus the uniform `{"status": "error", "error": msg}` shape. -/
inductive Payload where
  | launched (sessionId command : String) (width height : Nat)
  | sent (sessionId action : String)
  | captured (sessionId : String) (shot : ScreenshotResult)
  | closed (sessionId : String)
  | error (msg : String)
  deriving Repr, DecidableEq

/-- The `"status"` field of each payload shape. -/
def Payload.status : Payload → String
  | .launched .. => "launched"
  | .sent .. => "sent"
  | .captured .. => "captured"
  | .closed .. => "closed"
  | .error _ => "error"

/-- The `f"Session {session_id} not found"` error message. -/
def notFoundMsg (sid : String) : String := "Session " ++ sid ++ " not found"

/-- `terminal_launch` (`server.py`, lines 20-54): construct a session, start
it, register it on success; any exception is caught and converted to an
error payload (the partially started session object is dropped, already
cleaned up by `start`). -/
def terminal_launch (fsEnv : FsEnv) (env : StartEnv)
    (cenv : CleanupEnv) (sid command : String) (width height : Nat) (r : Registry) :
    Registry × Payload :=
  let session := XTermSession.init fsEnv sid command width height
  let r1 := start env cenv session
  match r1.2 with
  | none => ((sid, r1.1) :: r, .launched sid command width height)
  | some e => (r, .error e.message)

/-- `terminal_input` (`server.py`, lines 57-94): unknown session ids give an
error payload; `input_text` is acted on when present, else `key`, else the
"must provide" error; `send_text` / `send_key` failures are caught and
converted to error payloads.  The second component records the input
commands actually issued to the window system. -/
def terminal_input (wenv : WindowEnv) (r : Registry) (sid : String)
    (input_text key : Option String) : Payload × List InputAct :=
  match Registry.find? r sid with
  | none => (.error (notFoundMsg sid), [])
  | some _ =>
      match input_text with
      | some t =>
          match send_text wenv t with
          | .ok act => (.sent sid ("typed text: " ++ t), [act])
          | .error e => (.error e, [])
      | none =>
          match key with
          | some k =>
              match send_key wenv k with
              | .ok act => (.sent sid ("sent key: " ++ k), [act])
              | .error e => (.error e, [])
          | none => (.error "Must provide either input_text or key", [])

/-- `terminal_capture` (`server.py`, lines 97-127): unknown session ids give
an error payload; otherwise `capture_screenshot` runs (mutating the stored
session's scratch-directory field) and its raised errors are caught and
converted to error payloads. -/
def terminal_capture (cap : CaptureEnv) (r : Registry) (sid : String) :
    Registry × Payload :=
  match Registry.find? r sid with
  | none => (r, .error (notFoundMsg sid))
  | some sess =>
      let out := capture_screenshot cap sess
      match out.result with
      | .ok shot => (Registry.update r sid out.session, .captured sid shot)
      | .error e => (Registry.update r sid out.session, .error e)

/-- `terminal_close` (`server.py`, lines 130-154): unknown session ids give
an error payload; otherwise `cleanup` runs (it never raises, so the `except`
branch is unreachable), the entry is deleted and a closed payload
returned. -/
def terminal_close (cenv : CleanupEnv) (r : Registry) (sid : String) :
    Registry × Payload :=
  match Registry.find? r sid with
  | none => (r, .error (notFoundMsg sid))
  | some sess =>
      let _ := cleanup cenv sess
      (Registry.erase r sid, .closed sid)

/-- Whether `n` is an initial segment of `h` (character lists). -/
def listStartsWith : List Char → List Char → Bool
  | [], _ => true
  | _ :: _, [] => false
  | a :: n, b :: h => a = b && listStartsWith n h

/-- Whether `needle` occurs contiguously inside `hay` (character lists). -/
def listContains (needle : List Char) : List Char → Bool
  | [] => listStartsWith needle []
  | a :: t => listStartsWith needle (a :: t) || listContains needle t

/-- Whether `needle` occurs as a substring of `hay` (Python's `in` on
strings). -/
def strContains (needle hay : String) : Bool :=
  listContains needle.toList hay.toList

section Examples

/-- A filesystem with every X11 socket free. -/
def fsFree : FsEnv := ⟨fun _ => false⟩

/-- A filesystem where displays 100-199 are taken and 200 is free: the state
after which a first allocation falls back to display 200. -/
def fsTaken199 : FsEnv := ⟨fun n => decide (100 ≤ n ∧ n < 200)⟩

/-- A filesystem where displays 100-200 are all taken: a session bound to
the fallback display 200 is live. -/
def fsTaken200 : FsEnv := ⟨fun n => decide (100 ≤ n ∧ n ≤ 200)⟩

/-- A filesystem where only display 100 is taken. -/
def fsOne : FsEnv := ⟨fun n => decide (n = 100)⟩

/-- A world in which both children start and stay up. -/
def envOk : StartEnv :=
  { xvfbSpawnOk := true, xvfbSpawnErrMsg := "", xvfbEarlyExit := none, xvfbStderr := ""
    xtermSpawnOk := true, xtermSpawnErrMsg := "", xtermEarlyExit := none, xtermStderr := "" }

/-- A world in which Xvfb exits immediately with code 1 and a diagnostic on
stderr. -/
def envXvfbFail : StartEnv :=
  { xvfbSpawnOk := true, xvfbSpawnErrMsg := "", xvfbEarlyExit := some 1
    xvfbStderr := "cannot open display"
    xtermSpawnOk := true, xtermSpawnErrMsg := "", xtermEarlyExit := none, xtermStderr := "" }

/-- A world in which Xvfb starts but xterm exits immediately with code 1,
writing `"boom"` to its (discarded) stderr. -/
def envXtermFail : StartEnv :=
  { xvfbSpawnOk := true, xvfbSpawnErrMsg := "", xvfbEarlyExit := none, xvfbStderr := ""
    xtermSpawnOk := true, xtermSpawnErrMsg := "", xtermEarlyExit := some 1
    xtermStderr := "boom" }

/-- Both children terminate gracefully during cleanup. -/
def cenvOk : CleanupEnv := ⟨true, true⟩

/-- An unstarted session allocated on the free filesystem. -/
def sessionEx : Session := XTermSession.init fsFree "sid-0" "bash" 80 24

/-- A one-entry registry holding `sessionEx`. -/
def registryEx : Registry := [("sid-0", sessionEx)]

/-- A display on which the class-variant-1 search fails, the title search
returns window `W2`, the lower-case class search returns `W3`, and the
focused window is `W4`: the strategies disagree, so their order is
observable. -/
def wenvSplit : WindowEnv
  | .classXTerm => .completed 1 ""
  | .nameXterm => .completed 0 "W2"
  | .classXterm => .completed 0 "W3"
  | .getActiveWindow => .completed 0 "W4"

/-- A display on which only the title search succeeds, with two result lines
and surrounding whitespace. -/
def wenvTitleOnly : WindowEnv
  | .classXTerm => .completed 1 ""
  | .nameXterm => .completed 0 " 42\n43 "
  | .classXterm => .raised
  | .getActiveWindow => .completed 0 ""

/-- A capture world whose command succeeds and writes four bytes. -/
def capOk : CaptureEnv :=
  { now := 1000, mkdtempName := "/tmp/terminal_mcp_sid-0_x", importExit := 0
    importStderr := "", fileContents := some [0, 77, 255, 10] }

/-- A capture world whose command fails after writing a partial file. -/
def capFail : CaptureEnv :=
  { now := 1000, mkdtempName := "/tmp/terminal_mcp_sid-0_x", importExit := 1
    importStderr := "unable to open X server", fileContents := some [1] }

end Examples

/-! ### Helper lemmas -/

theorem terminateProc_dead (g : Bool) (tAct kAct : TeardownAct) (op : Option Proc) :
    procDead (terminateProc g tAct kAct op).1 = true := by
  cases op with
  | none => rfl
  | some p =>
    cases hp : p.returncode with
    | some c => simp [terminateProc, hp, procDead]
    | none => cases g <;> simp [terminateProc, hp, procDead]

theorem terminateProc_of_dead (g : Bool) (tAct kAct : TeardownAct) (op : Option Proc)
    (h : procDead op = true) : terminateProc g tAct kAct op = (op, []) := by
  cases op with
  | none => rfl
  | some p =>
    cases hp : p.returncode with
    | some c => simp [terminateProc, hp]
    | none => simp [procDead, hp] at h

theorem cleanup_stopped (cenv : CleanupEnv) (s : Session) :
    sessionStopped (cleanup cenv s).1 := by
  refine ⟨rfl, ?_, ?_, rfl⟩ <;> simp [cleanup, terminateProc_dead]

theorem cleanup_cleanup (cenv cenv2 : CleanupEnv) (s : Session) :
    cleanup cenv2 (cleanup cenv s).1 = ((cleanup cenv s).1, []) := by
  have hx := terminateProc_of_dead cenv2.xtermGraceful .terminateXterm .killXterm
      (terminateProc cenv.xtermGraceful .terminateXterm .killXterm s.xtermProc).1
      (terminateProc_dead cenv.xtermGraceful .terminateXterm .killXterm s.xtermProc)
  have hv := terminateProc_of_dead cenv2.xvfbGraceful .terminateXvfb .killXvfb
      (terminateProc cenv.xvfbGraceful .terminateXvfb .killXvfb s.xvfbProc).1
      (terminateProc_dead cenv.xvfbGraceful .terminateXvfb .killXvfb s.xvfbProc)
  simp [cleanup, hx, hv]

theorem registry_find?_erase (r : Registry) (sid : String) :
    Registry.find? (Registry.erase r sid) sid = none := by
  induction r with
  | nil => rfl
  | cons p t ih =>
    by_cases h : p.1 = sid
    · simpa [Registry.erase, Registry.find?, List.filter_cons, h] using ih
    · simp only [Registry.erase, Registry.find?, List.filter_cons, h] at ih ⊢
      simpa [List.find?, h] using ih

theorem listStartsWith_append (n r : List Char) : listStartsWith n (n ++ r) = true := by
  induction n with
  | nil => rfl
  | cons a t ih => simp [listStartsWith, ih]

theorem listContains_suffix (n l : List Char) : listContains n (l ++ n) = true := by
  induction l with
  | nil =>
    have h : listStartsWith n n = true := by
      have := listStartsWith_append n []
      simpa using this
    cases n with
    | nil => rfl
    | cons b m =>
      simp only [List.nil_append, listContains, Bool.or_eq_true]
      exact Or.inl h
  | cons a t ih => simp [listContains, ih]

theorem strContains_suffix (a b : String) : strContains b (a ++ b) = true :=
  listContains_suffix b.toList a.toList

theorem b64CharVal_b64Char : ∀ n < 64, b64CharVal (b64Char n) = some n := by decide

theorem b64Char_ne_pad : ∀ n < 64, b64Char n ≠ b64Pad := by decide

/-- Induction principle following the three-byte chunking of base64. -/
theorem bytesChunkInduction (P : Bytes → Prop) (h0 : P []) (h1 : ∀ a, P [a])
    (h2 : ∀ a b, P [a, b])
    (h3 : ∀ a b c rest, P rest → P (a :: b :: c :: rest)) : ∀ bs, P bs
  | [] => h0
  | [a] => h1 a
  | [a, b] => h2 a b
  | a :: b :: c :: rest =>
      h3 a b c rest (bytesChunkInduction P h0 h1 h2 h3 rest)

theorem b64decode_encode_chunks (bs : Bytes) :
    (∀ b ∈ bs, b < 256) → b64decodeChunks (b64encodeChunks bs) = some bs := by
  induction bs using bytesChunkInduction with
  | h0 => intro _; rfl
  | h1 a =>
    intro h
    have ha : a < 256 := h a (by simp)
    have e0 := b64CharVal_b64Char (a / 4) (by omega)
    have e1 := b64CharVal_b64Char (a % 4 * 16) (by omega)
    simp only [b64encodeChunks, b64decodeChunks, e0, e1]
    simp only [if_pos rfl, and_self, if_true]
    simp only [Option.some.injEq, List.cons.injEq, and_true]
    omega
  | h2 a b =>
    intro h
    have ha : a < 256 := h a (by simp)
    have hb : b < 256 := h b (by simp)
    have e0 := b64CharVal_b64Char (a / 4) (by omega)
    have e1 := b64CharVal_b64Char (a % 4 * 16 + b / 16) (by omega)
    have e2 := b64CharVal_b64Char (b % 16 * 4) (by omega)
    have ne2 := b64Char_ne_pad (b % 16 * 4) (by omega)
    simp only [b64encodeChunks, b64decodeChunks, e0, e1, e2, if_neg ne2]
    simp only [if_pos rfl, and_self, if_true]
    simp only [Option.some.injEq, List.cons.injEq, and_true]
    constructor <;> omega
  | h3 a b c rest ih =>
    intro h
    have ha : a < 256 := h a (by simp)
    have hb : b < 256 := h b (by simp)
    have hc : c < 256 := h c (by simp)
    have hrest : ∀ x ∈ rest, x < 256 := fun x hx => h x (by simp [hx])
    have e0 := b64CharVal_b64Char (a / 4) (by omega)
    have e1 := b64CharVal_b64Char (a % 4 * 16 + b / 16) (by omega)
    have e2 := b64CharVal_b64Char (b % 16 * 4 + c / 64) (by omega)
    have e3 := b64CharVal_b64Char (c % 64) (by omega)
    have ne2 := b64Char_ne_pad (b % 16 * 4 + c / 64) (by omega)
    have ne3 := b64Char_ne_pad (c % 64) (by omega)
    simp only [b64encodeChunks, b64decodeChunks, e0, e1, e2, e3, if_neg ne2, if_neg ne3,
      ih hrest]
    simp only [Option.some.injEq, List.cons.injEq, and_true]
    refine ⟨by omega, by omega, by omega⟩

theorem b64decode_encode (bs : Bytes) (h : ∀ b ∈ bs, b < 256) :
    b64decode (b64encode bs) = some bs :=
  b64decode_encode_chunks bs h

/-! ### Claim theorems -/

/-- C1: `start` returns without error only with the running flag set and both
child-process handles present; when either startup step raises, the returned
state is one on which `cleanup` has been run, it is stopped, and the running
flag is false. -/
theorem start_running_only_with_both_handles (env : StartEnv) (cenv : CleanupEnv)
    (s : Session) :
    ((start env cenv s).2 = none →
        (start env cenv s).1.isRunning = true ∧
        (start env cenv s).1.xvfbProc.isSome = true ∧
        (start env cenv s).1.xtermProc.isSome = true) ∧
    (∀ e, (start env cenv s).2 = some e →
        (∃ m, (start env cenv s).1 = (cleanup cenv m).1) ∧
        sessionStopped (start env cenv s).1) := by
  cases hv : env.xvfbSpawnOk with
  | false =>
    refine ⟨fun h => by simp [start, startVirtualDisplay, hv] at h,
      fun e he => ⟨⟨s, ?_⟩, ?_⟩⟩
    · simp [start, startVirtualDisplay, hv]
    · simpa [start, startVirtualDisplay, hv] using cleanup_stopped cenv s
  | true =>
    cases he1 : env.xvfbEarlyExit with
    | some code =>
      refine ⟨fun h => by simp [start, startVirtualDisplay, hv, he1] at h,
        fun e he => ⟨⟨{ s with xvfbProc := some ⟨some code⟩ }, ?_⟩, ?_⟩⟩
      · simp [start, startVirtualDisplay, hv, he1]
      · simpa [start, startVirtualDisplay, hv, he1] using
          cleanup_stopped cenv { s with xvfbProc := some ⟨some code⟩ }
    | none =>
      cases hx : env.xtermSpawnOk with
      | false =>
        refine ⟨fun h => by
            simp [start, startVirtualDisplay, startXterm, hv, he1, hx] at h,
          fun e he => ⟨⟨{ s with xvfbProc := some ⟨none⟩ }, ?_⟩, ?_⟩⟩
        · simp [start, startVirtualDisplay, startXterm, hv, he1, hx]
        · simpa [start, startVirtualDisplay, startXterm, hv, he1, hx] using
            cleanup_stopped cenv { s with xvfbProc := some ⟨none⟩ }
      | true =>
        cases he2 : env.xtermEarlyExit with
        | some code =>
          refine ⟨fun h => by
              simp [start, startVirtualDisplay, startXterm, hv, he1, hx, he2] at h,
            fun e he =>
              ⟨⟨{ s with xvfbProc := some ⟨none⟩, xtermProc := some ⟨some code⟩ }, ?_⟩, ?_⟩⟩
          · simp [start, startVirtualDisplay, startXterm, hv, he1, hx, he2]
          · simpa [start, startVirtualDisplay, startXterm, hv, he1, hx, he2] using
              cleanup_stopped cenv
                { s with xvfbProc := some ⟨none⟩, xtermProc := some ⟨some code⟩ }
        | none =>
          refine ⟨fun _ => ?_, fun e he => ?_⟩
          · refine ⟨?_, ?_, ?_⟩ <;>
              simp [start, startVirtualDisplay, startXterm, hv, he1, hx, he2]
          · simp [start, startVirtualDisplay, startXterm, hv, he1, hx, he2] at he

/-- Witness for C1: a successful start is running with both handles; a start
whose display server dies is stopped. -/
theorem start_running_only_with_both_handles_witness :
    ((start envOk cenvOk sessionEx).1.isRunning = true ∧
      (start envOk cenvOk sessionEx).1.xvfbProc.isSome = true ∧
      (start envOk cenvOk sessionEx).1.xtermProc.isSome = true) ∧
    sessionStopped (start envXvfbFail cenvOk sessionEx).1 :=
  ⟨(start_running_only_with_both_handles envOk cenvOk sessionEx).1 rfl,
   ((start_running_only_with_both_handles envXvfbFail cenvOk sessionEx).2
      (.runtimeError (xvfbFailMsg 1 "cannot open display")) (by decide)).2⟩

/-- C2: `cleanup` is a total function (never raises), every invocation ends
with the session stopped (running flag false, both children terminated,
scratch directory removed), and a second invocation performs no teardown
action and changes nothing. -/
theorem cleanup_total_idempotent_stops (cenv cenv2 : CleanupEnv) (s : Session) :
    sessionStopped (cleanup cenv s).1 ∧
    cleanup cenv2 (cleanup cenv s).1 = ((cleanup cenv s).1, []) :=
  ⟨cleanup_stopped cenv s, cleanup_cleanup cenv cenv2 s⟩

/-- C3: closing a registered session succeeds and removes it from the
registry; a second close on the same id returns the "not found" error
payload; the cleaned-up session has no live children and no scratch
directory. -/
theorem close_idempotent (cenv cenv2 : CleanupEnv) (r : Registry) (sid : String)
    (sess : Session) (h : Registry.find? r sid = some sess) :
    terminal_close cenv r sid = (Registry.erase r sid, .closed sid) ∧
    Registry.find? (Registry.erase r sid) sid = none ∧
    terminal_close cenv2 (Registry.erase r sid) sid =
      (Registry.erase r sid, .error (notFoundMsg sid)) ∧
    sessionStopped (cleanup cenv sess).1 := by
  refine ⟨?_, registry_find?_erase r sid, ?_, cleanup_stopped cenv sess⟩
  · simp [terminal_close, h]
  · simp [terminal_close, registry_find?_erase r sid]

/-- Witness for C3 at a one-entry registry. -/
theorem close_idempotent_witness :
    terminal_close cenvOk registryEx "sid-0" =
      (Registry.erase registryEx "sid-0", .closed "sid-0") ∧
    Registry.find? (Registry.erase registryEx "sid-0") "sid-0" = none ∧
    terminal_close cenvOk (Registry.erase registryEx "sid-0") "sid-0" =
      (Registry.erase registryEx "sid-0", .error (notFoundMsg "sid-0")) ∧
    sessionStopped (cleanup cenvOk sessionEx).1 :=
  close_idempotent cenvOk cenvOk registryEx "sid-0" sessionEx (by decide)

/-- C4: every tool returns a structured payload — its success shape or the
error shape — and `input` / `capture` on an unregistered session id return
the "not found" error payload instead of raising. -/
theorem tools_return_structured_payloads (fsEnv : FsEnv) (env : StartEnv)
    (cenv : CleanupEnv) (wenv : WindowEnv) (cap : CaptureEnv) (r : Registry)
    (sid command : String) (width height : Nat) (it k : Option String) :
    ((terminal_launch fsEnv env cenv sid command width height r).2.status = "launched" ∨
      (terminal_launch fsEnv env cenv sid command width height r).2.status = "error") ∧
    ((terminal_input wenv r sid it k).1.status = "sent" ∨
      (terminal_input wenv r sid it k).1.status = "error") ∧
    ((terminal_capture cap r sid).2.status = "captured" ∨
      (terminal_capture cap r sid).2.status = "error") ∧
    ((terminal_close cenv r sid).2.status = "closed" ∨
      (terminal_close cenv r sid).2.status = "error") ∧
    (Registry.find? r sid = none →
      (terminal_input wenv r sid it k).1 = .error (notFoundMsg sid) ∧
      (terminal_capture cap r sid).2 = .error (notFoundMsg sid)) := by
  refine ⟨?_, ?_, ?_, ?_, ?_⟩
  · cases hres : (start env cenv (XTermSession.init fsEnv sid command width height)).2 with
    | none => left; simp [terminal_launch, hres, Payload.status]
    | some e => right; simp [terminal_launch, hres, Payload.status]
  · cases hf : Registry.find? r sid with
    | none => right; simp [terminal_input, hf, Payload.status]
    | some s2 =>
      cases it with
      | some t =>
        cases hst : send_text wenv t with
        | ok act => left; simp [terminal_input, hf, hst, Payload.status]
        | error e => right; simp [terminal_input, hf, hst, Payload.status]
      | none =>
        cases k with
        | some kk =>
          cases hsk : send_key wenv kk with
          | ok act => left; simp [terminal_input, hf, hsk, Payload.status]
          | error e => right; simp [terminal_input, hf, hsk, Payload.status]
        | none => right; simp [terminal_input, hf, Payload.status]
  · cases hf : Registry.find? r sid with
    | none => right; simp [terminal_capture, hf, Payload.status]
    | some s2 =>
      cases hres : (capture_screenshot cap s2).result with
      | ok shot => left; simp [terminal_capture, hf, hres, Payload.status]
      | error e => right; simp [terminal_capture, hf, hres, Payload.status]
  · cases hf : Registry.find? r sid with
    | none => right; simp [terminal_close, hf, Payload.status]
    | some s2 => left; simp [terminal_close, hf, Payload.status]
  · intro hf
    exact ⟨by simp [terminal_input, hf], by simp [terminal_capture, hf]⟩

/-- Witness for C4: unknown-session-id input and capture at a concrete
registry. -/
theorem tools_return_structured_payloads_witness :
    (terminal_input wenvSplit registryEx "missing" none none).1 =
      .error (notFoundMsg "missing") ∧
    (terminal_capture capOk registryEx "missing").2 = .error (notFoundMsg "missing") :=
  (tools_return_structured_payloads fsFree envOk cenvOk wenvSplit capOk registryEx
    "missing" "bash" 80 24 none none).2.2.2.2 (by decide)

/-- C5 counterexample: when the terminal emulator exits during startup, the
surfaced message carries only the return code — the child's diagnostic
stream was discarded (`stderr=DEVNULL`), so its text (here `"boom"`) does not
occur in the error.  The claim fails for the terminal-emulator half. -/
theorem start_xterm_error_lacks_diagnostic :
    (start envXtermFail cenvOk sessionEx).2 =
      some (.runtimeError (xtermFailMsg 1)) ∧
    envXtermFail.xtermStderr = "boom" ∧
    strContains envXtermFail.xtermStderr (xtermFailMsg 1) = false :=
  ⟨by decide, rfl, by decide⟩

/-- C5 (amended): an early exit of the virtual display server fails `start`
with a message containing that child's stderr text; an early exit of the
terminal emulator fails `start` with a message carrying only the return
code (its diagnostic stream is discarded).  Either way the session is not
running. -/
theorem start_early_exit_surfaces (env : StartEnv) (cenv : CleanupEnv) (s : Session) :
    (env.xvfbSpawnOk = true → ∀ code, env.xvfbEarlyExit = some code →
      env.xvfbStderr ≠ "" →
      (start env cenv s).2 =
        some (.runtimeError (xvfbFailMsg code env.xvfbStderr)) ∧
      strContains env.xvfbStderr (xvfbFailMsg code env.xvfbStderr) = true ∧
      (start env cenv s).1.isRunning = false) ∧
    (env.xvfbSpawnOk = true → env.xvfbEarlyExit = none → env.xtermSpawnOk = true →
      ∀ code, env.xtermEarlyExit = some code →
      (start env cenv s).2 = some (.runtimeError (xtermFailMsg code)) ∧
      (start env cenv s).1.isRunning = false) := by
  constructor
  · intro hv code he hne
    refine ⟨?_, ?_, ?_⟩
    · simp [start, startVirtualDisplay, hv, he, hne]
    · exact strContains_suffix ("Xvfb failed to start with return code " ++
        toString code ++ ": ") env.xvfbStderr
    · have := (cleanup_stopped cenv { s with xvfbProc := some ⟨some code⟩ }).1
      simpa [start, startVirtualDisplay, hv, he, hne] using this
  · intro hv he hx code he2
    refine ⟨?_, ?_⟩
    · simp [start, startVirtualDisplay, startXterm, hv, he, hx, he2]
    · have := (cleanup_stopped cenv
        { s with xvfbProc := some ⟨none⟩, xtermProc := some ⟨some code⟩ }).1
      simpa [start, startVirtualDisplay, startXterm, hv, he, hx, he2] using this

/-- Witness for C5 (amended): the Xvfb failure path at a concrete world. -/
theorem start_early_exit_surfaces_witness :
    (start envXvfbFail cenvOk sessionEx).2 =
      some (.runtimeError (xvfbFailMsg 1 "cannot open display")) ∧
    strContains "cannot open display" (xvfbFailMsg 1 "cannot open display") = true ∧
    (start envXvfbFail cenvOk sessionEx).1.isRunning = false :=
  (start_early_exit_surfaces envXvfbFail cenvOk sessionEx).1 rfl 1 rfl (by decide)

/-- C6 counterexample: when displays 100-199 are all taken, the allocator
returns the fallback display `:200` without checking it.  A first session
allocated under such a state holds `:200` and its socket exists, yet a
second concurrent allocation is handed the same `:200` — two live sessions
share a display identifier. -/
theorem display_fallback_collides :
    find_free_display fsTaken199 100 100 = ":200" ∧
    fsTaken200.socketExists 200 = true ∧
    find_free_display fsTaken200 100 100 = ":200" :=
  ⟨by decide, rfl, by decide⟩

/-- C6 (amended): whenever the allocator's scan finds a candidate inside the
scanned range (the fallback is not used), the returned display's socket does
not exist, so the identifier differs from that of every concurrently-live
session (whose socket does exist); only the fallback past the range can
collide. -/
theorem display_in_range_is_fresh (env : FsEnv) (a k d : Nat)
    (h : findFreeDisplayAux env a k = some d) :
    find_free_display env a k = ":" ++ toString d ∧
    env.socketExists d = false ∧
    ∀ live, env.socketExists live = true → d ≠ live := by
  have hfresh : env.socketExists d = false := by
    induction k generalizing a with
    | zero => simp [findFreeDisplayAux] at h
    | succ n ih =>
      by_cases hs : env.socketExists a = true
      · exact ih (a + 1) (by simpa [findFreeDisplayAux, hs] using h)
      · have hd : a = d := by simpa [findFreeDisplayAux, hs] using h
        subst hd
        simpa using hs
  refine ⟨?_, hfresh, ?_⟩
  · simp [find_free_display, h]
  · intro live hlive heq
    rw [heq, hlive] at hfresh
    cases hfresh

/-- Witness for C6 (amended): with only display 100 taken the scan returns
101, distinct from the live display 100. -/
theorem display_in_range_is_fresh_witness :
    find_free_display fsOne 100 100 = ":" ++ toString 101 ∧
    fsOne.socketExists 101 = false ∧
    (101 : Nat) ≠ 100 := by
  obtain ⟨h1, h2, h3⟩ := display_in_range_is_fresh fsOne 100 100 101 (by decide)
  exact ⟨h1, h2, h3 100 rfl⟩

/-- C7 counterexample: on a display where the title search and the
lower-case class search disagree, the locator returns the title search's
window (`W2`), not the one the spec's strategy order (class variant 1,
class variant 2, title, focus) would give (`W3`): in the code the title
search runs second, before the lower-case class search. -/
theorem window_order_differs_from_spec :
    get_window_id wenvSplit = some "W2" ∧
    firstMatch wenvSplit specSearchOrder = some "W3" ∧
    get_window_id wenvSplit ≠ firstMatch wenvSplit specSearchOrder :=
  ⟨by decide, by decide, by decide⟩

/-- C7 (amended): the locator tries, in order, class `XTerm`, window-title
substring `xterm`, class `xterm`, then the focused window; it returns the
first strategy's hit (first line of the output, skipping empty results and
raised strategies) and `none` without raising when all four fail. -/
theorem window_locator_order (wenv : WindowEnv) :
    get_window_id wenv = firstMatch wenv searchMethods ∧
    (∀ w, methodResult wenv .classXTerm = some w → get_window_id wenv = some w) ∧
    (methodResult wenv .classXTerm = none →
      ∀ w, methodResult wenv .nameXterm = some w → get_window_id wenv = some w) ∧
    (methodResult wenv .classXTerm = none → methodResult wenv .nameXterm = none →
      ∀ w, methodResult wenv .classXterm = some w → get_window_id wenv = some w) ∧
    (methodResult wenv .classXTerm = none → methodResult wenv .nameXterm = none →
      methodResult wenv .classXterm = none →
      ∀ w, methodResult wenv .getActiveWindow = some w → get_window_id wenv = some w) ∧
    (methodResult wenv .classXTerm = none → methodResult wenv .nameXterm = none →
      methodResult wenv .classXterm = none → methodResult wenv .getActiveWindow = none →
      get_window_id wenv = none) ∧
    parseWindowId "111\n222" = some "111" := by
  refine ⟨rfl, ?_, ?_, ?_, ?_, ?_, by decide⟩
  · intro w hw
    simp [get_window_id, searchMethods, firstMatch, hw]
  · intro h1 w hw
    simp [get_window_id, searchMethods, firstMatch, h1, hw]
  · intro h1 h2 w hw
    simp [get_window_id, searchMethods, firstMatch, h1, h2, hw]
  · intro h1 h2 h3 w hw
    simp [get_window_id, searchMethods, firstMatch, h1, h2, h3, hw]
  · intro h1 h2 h3 h4
    simp [get_window_id, searchMethods, firstMatch, h1, h2, h3, h4]

/-- Witness for C7 (amended): the title-substring strategy, second in order,
wins when the class search fails, and the first output line is used. -/
theorem window_locator_order_witness :
    get_window_id wenvTitleOnly = some "42" :=
  (window_locator_order wenvTitleOnly).2.2.1 (by decide) "42" (by decide)

/-- C8: when `capture_screenshot` returns, the screenshot path no longer
exists on disk — the success path unlinks it after reading, encoding and
stat-ing, and the failure handler unlinks it whenever the command had
created it. -/
theorem capture_leaves_no_file (env : CaptureEnv) (s : Session) :
    (capture_screenshot env s).fileAfter = none := by
  unfold capture_screenshot
  cases hf : env.fileContents <;> by_cases h : env.importExit ≠ 0 <;> simp [h, hf]

/-- C9: `terminal_input` on a registered session returns the "must provide"
error payload (and issues no input command) when neither text nor key is
supplied; every input command it issues carries the supplied text when text
is present (the key is ignored), carries the supplied key when only the key
is present, and at most one command is issued per call. -/
theorem input_requires_text_or_key (wenv : WindowEnv) (r : Registry) (sid : String)
    (sess : Session) (h : Registry.find? r sid = some sess) :
    (terminal_input wenv r sid none none).1 =
      .error "Must provide either input_text or key" ∧
    (terminal_input wenv r sid none none).2 = [] ∧
    (∀ t k act, act ∈ (terminal_input wenv r sid (some t) k).2 →
      ∃ w, act = .typed w t) ∧
    (∀ k act, act ∈ (terminal_input wenv r sid none (some k)).2 →
      ∃ w, act = .keyed w k) ∧
    (∀ it k, (terminal_input wenv r sid it k).2.length ≤ 1) := by
  refine ⟨by simp [terminal_input, h], by simp [terminal_input, h], ?_, ?_, ?_⟩
  · intro t k act hact
    simp only [terminal_input, h] at hact
    cases hw : get_window_id wenv with
    | none => simp [send_text, hw] at hact
    | some wid =>
      simp [send_text, hw] at hact
      exact ⟨wid, hact⟩
  · intro k act hact
    simp only [terminal_input, h] at hact
    cases hw : get_window_id wenv with
    | none => simp [send_key, hw] at hact
    | some wid =>
      simp [send_key, hw] at hact
      exact ⟨wid, hact⟩
  · intro it k
    cases it with
    | some t => cases hw : get_window_id wenv <;>
        simp [terminal_input, h, send_text, hw]
    | none =>
      cases k with
      | some kk => cases hw : get_window_id wenv <;>
          simp [terminal_input, h, send_key, hw]
      | none => simp [terminal_input, h]

/-- Witness for C9: neither text nor key on a registered session. -/
theorem input_requires_text_or_key_witness :
    (terminal_input wenvSplit registryEx "sid-0" none none).1 =
      .error "Must provide either input_text or key" :=
  (input_requires_text_or_key wenvSplit registryEx "sid-0" sessionEx (by decide)).1

/-- C10: on a successful capture, base64-decoding the returned `image_data`
yields exactly the bytes the capture command wrote to the screenshot file,
and the metadata's `file_size` is the byte length of those bytes. -/
theorem capture_roundtrip (env : CaptureEnv) (s : Session) (bytes : Bytes)
    (h0 : env.importExit = 0) (h1 : env.fileContents = some bytes)
    (hb : ∀ b ∈ bytes, b < 256) :
    Except.map (fun shot => b64decode shot.image_data)
      (capture_screenshot env s).result = .ok (some bytes) ∧
    Except.map (fun shot => shot.md_file_size)
      (capture_screenshot env s).result = .ok bytes.length := by
  unfold capture_screenshot
  simp [h0, h1, Except.map, b64decode_encode bytes hb]

/-- Witness for C10 on four concrete bytes. -/
theorem capture_roundtrip_witness :
    Except.map (fun shot => b64decode shot.image_data)
      (capture_screenshot capOk sessionEx).result = .ok (some [0, 77, 255, 10]) ∧
    Except.map (fun shot => shot.md_file_size)
      (capture_screenshot capOk sessionEx).result = .ok 4 :=
  capture_roundtrip capOk sessionEx [0, 77, 255, 10] rfl rfl (by decide)

end TerminalMCP
